import Mathlib

/-!
Shallow embedding of the Codex connection manager from
`src/src-tauri/src/codex.rs` (crate `Dextools`).

The manager's mutable fields (node slot, status register, error register,
progress-sender registry, network/storage snapshots) become one explicit
`ManagerState` record; each `async` method becomes a pure state-passing
function. Calls into the external `codex_bindings` crate (node construction,
start, transfers, metadata queries) are modelled by environment records
carrying the outcome of each external call, and the sequence of
node-capability methods actually invoked is returned as a trace.

The progress channels: the source keeps a `HashMap<String, UnboundedSender>`;
we keep the set of registered keys (`registry`) mirroring the map, plus an
instrumentation field `transcript` recording, per operation id, the events
sent into that id's channel (what a receiver on the other end observes).
`send_progress` drops the event when the id is not registered, exactly as the
source does. Registering an id installs a fresh (empty) channel.

The `f64` progress fraction is modelled as `ℚ`.
-/

namespace Dextools

inductive CodexConnectionStatus where
  | Disconnected
  | Connecting
  | Connected
  | Error
deriving DecidableEq, Repr

inductive OperationStage where
  | Initializing
  | Uploading
  | Downloading
  | Verifying
  | Completed
  | Failed (reason : String)
deriving DecidableEq, Repr

structure ProgressMessage where
  operation_id : String
  progress : ℚ
  bytes_processed : ℕ
  total_bytes : Option ℕ
  stage : OperationStage
  message : Option String
deriving DecidableEq, Repr

def ProgressMessage.new (operation_id : String) : ProgressMessage :=
  { operation_id := operation_id
    progress := 0
    bytes_processed := 0
    total_bytes := none
    stage := OperationStage.Initializing
    message := none }

def ProgressMessage.with_bytes (m : ProgressMessage) (bytes_processed : ℕ)
    (total_bytes : Option ℕ) : ProgressMessage :=
  let m := { m with bytes_processed := bytes_processed, total_bytes := total_bytes }
  match total_bytes with
  | some total => { m with progress := (bytes_processed : ℚ) / (total : ℚ) }
  | none => m

def ProgressMessage.with_stage (m : ProgressMessage) (stage : OperationStage) :
    ProgressMessage :=
  { m with stage := stage }

def ProgressMessage.with_message (m : ProgressMessage) (message : String) :
    ProgressMessage :=
  { m with message := some message }

inductive LogLevel where
  | Trace
  | Debug
  | Info
  | Warn
  | Error
deriving DecidableEq, Repr

structure DextoolsConfig where
  data_dir : String
  storage_quota : ℕ
  max_peers : ℕ
  discovery_port : ℕ
  log_level : LogLevel
  auto_connect : Bool
deriving DecidableEq, Repr

structure NetworkInfo where
  peer_id : Option String
  version : Option String
  repo_path : Option String
  connected_peers : ℕ
  max_peers : ℕ
deriving DecidableEq, Repr

structure StorageInfo where
  used_bytes : ℕ
  total_bytes : ℕ
  available_bytes : ℕ
  block_count : ℕ
deriving DecidableEq, Repr

/-- The external `CodexNode` capability, reduced to the one observable the
manager consults: whether the node has been started. -/
structure CodexNode where
  started : Bool
deriving DecidableEq, Repr

inductive CodexError where
  | NodeCreation (msg : String)
  | NodeStart (msg : String)
  | NodeNotInitialized
  | NodeNotStarted
  | Upload (msg : String)
  | Download (msg : String)
  | FileNotFound (path : String)
  | InvalidCid (msg : String)
  | Io (msg : String)
  | Configuration (msg : String)
deriving DecidableEq, Repr

/-- Methods invoked on the external node capability, traced so theorems can
speak about which capability calls a code path performs. -/
inductive NodeCall where
  | isStarted
  | uploadFile
  | downloadStream
deriving DecidableEq, Repr

/-- The mutable state of `CodexManager`, with `transcript` as the
per-operation channel instrumentation described in the header comment. -/
structure ManagerState where
  node : Option CodexNode
  config : DextoolsConfig
  status : CodexConnectionStatus
  error : Option String
  registry : List String
  transcript : String → List ProgressMessage
  network_info : NetworkInfo
  storage_info : StorageInfo

/-- `HashMap::insert` of a fresh sender: key becomes present. -/
def insertId (l : List String) (id : String) : List String :=
  if id ∈ l then l else id :: l

/-- `HashMap::remove`: key becomes absent. -/
def removeId (l : List String) (id : String) : List String :=
  l.filter (fun x => x != id)

/-- Register a progress sender: insert the key and install a fresh channel
(`senders.insert(operation_id.clone(), tx)` in the source). -/
def registerOp (s : ManagerState) (id : String) : ManagerState :=
  { s with registry := insertId s.registry id
           transcript := fun k => if k = id then [] else s.transcript k }

/-- `CodexManager::send_progress`: look the sender up; if absent, silently
drop the event. -/
def sendProgress (s : ManagerState) (id : String) (m : ProgressMessage) :
    ManagerState :=
  if id ∈ s.registry then
    { s with transcript := fun k => if k = id then s.transcript k ++ [m] else s.transcript k }
  else s

/-- Remove the progress sender (`senders.remove(&operation_id)`). The
transcript of already-delivered events is kept for reasoning. -/
def endOp (s : ManagerState) (id : String) : ManagerState :=
  { s with registry := removeId s.registry id }

/-- Outcomes of the external calls made during `connect`. -/
structure ConnectEnv where
  createResult : Except String CodexNode
  startResult : Except String Unit
  peerId : Except String String
  version : Except String String
  repoPath : Except String String

def exceptOk {α : Type} (r : Except String α) : Option α :=
  match r with
  | Except.ok a => some a
  | Except.error _ => none

/-- `CodexManager::connect` (codex.rs lines 235-296): set status Connecting,
clear errors, construct and start the node, store it, set Connected, refresh
the network snapshot (whose individual query failures become `None` fields). -/
def CodexManager.connect (s : ManagerState) (env : ConnectEnv) :
    ManagerState × Except CodexError Unit :=
  let s := { s with status := CodexConnectionStatus.Connecting }
  let s := { s with error := none }
  match env.createResult with
  | Except.error e => (s, Except.error (CodexError.NodeCreation e))
  | Except.ok node =>
    match env.startResult with
    | Except.error e => (s, Except.error (CodexError.NodeStart e))
    | Except.ok _ =>
      let node := { node with started := true }
      let s := { s with node := some node }
      let s := { s with status := CodexConnectionStatus.Connected }
      let s := { s with network_info :=
        { s.network_info with
            peer_id := exceptOk env.peerId
            version := exceptOk env.version
            repo_path := exceptOk env.repoPath
            max_peers := s.config.max_peers } }
      (s, Except.ok ())

/-- `CodexManager::disconnect` (codex.rs lines 298-336): set status
Disconnected, take and stop the node (stop failures only logged), clear the
network snapshot's live fields, clear errors. -/
def CodexManager.disconnect (s : ManagerState)
    (stopResult : Except String Unit) : ManagerState × Except CodexError Unit :=
  let s := { s with status := CodexConnectionStatus.Disconnected }
  let s := { s with node := none }
  let s := { s with network_info :=
    { s.network_info with
        peer_id := none
        version := none
        repo_path := none
        connected_peers := 0 } }
  let s := { s with error := none }
  (s, Except.ok ())

def CodexManager.get_status (s : ManagerState) : CodexConnectionStatus :=
  s.status

def CodexManager.get_error (s : ManagerState) : Option String :=
  s.error

def CodexManager.get_network_info (s : ManagerState) : NetworkInfo :=
  s.network_info

def CodexManager.get_storage_info (s : ManagerState) : StorageInfo :=
  s.storage_info

/-- The fresh-manager state built by `CodexManager::new` (codex.rs lines
206-226): empty node slot, Disconnected, no error, empty registry, default
network snapshot, and a storage snapshot seeded with the literal
`1024 * 1024 * 1024` for total and available bytes. -/
def CodexManager.initialState (config : DextoolsConfig) : ManagerState :=
  { node := none
    config := config
    status := CodexConnectionStatus.Disconnected
    error := none
    registry := []
    transcript := fun _ => []
    network_info :=
      { peer_id := none
        version := none
        repo_path := none
        connected_peers := 0
        max_peers := 50 }
    storage_info :=
      { used_bytes := 0
        total_bytes := 1024 * 1024 * 1024
        available_bytes := 1024 * 1024 * 1024
        block_count := 0 } }

/-- `CodexManager::new` (codex.rs lines 206-233): build the initial state and,
when `auto_connect` is set, run `connect`, propagating its error. -/
def CodexManager.new (config : DextoolsConfig) (env : ConnectEnv) :
    Except CodexError ManagerState :=
  let m := CodexManager.initialState config
  if config.auto_connect then
    match CodexManager.connect m env with
    | (m2, Except.ok _) => Except.ok m2
    | (_, Except.error e) => Except.error e
  else
    Except.ok m

/-- The event sent at the top of both transfer methods. -/
def initializingMsg (id : String) : ProgressMessage :=
  (ProgressMessage.new id).with_stage OperationStage.Initializing

/-- The "file size known" event of `upload_file_with_progress`. -/
def uploadSizeMsg (id : String) (file_size : ℕ) : ProgressMessage :=
  ((((ProgressMessage.new id).with_stage OperationStage.Uploading).with_bytes
      0 (some file_size)).with_message
    ("Starting upload of " ++ toString file_size ++ " bytes"))

/-- The event re-emitted by the upload progress callback. -/
def uploadCallbackMsg (id : String) (p : ℕ × Option ℕ) : ProgressMessage :=
  ((((ProgressMessage.new id).with_stage OperationStage.Uploading).with_bytes
      p.1 p.2).with_message
    ("Uploaded " ++ toString p.1 ++ " bytes"))

/-- The terminal event of a successful upload. -/
def uploadCompletionMsg (id : String) (file_size : ℕ) : ProgressMessage :=
  ((((ProgressMessage.new id).with_stage OperationStage.Completed).with_bytes
      file_size (some file_size)).with_message
    "Upload completed successfully")

/-- The "download start" event of `download_file_with_progress`. -/
def downloadStartMsg (id cid : String) : ProgressMessage :=
  (((ProgressMessage.new id).with_stage OperationStage.Downloading).with_message
    ("Starting download of CID: " ++ cid))

/-- The event re-emitted by the download progress callback. -/
def downloadCallbackMsg (id : String) (p : ℕ × Option ℕ) : ProgressMessage :=
  ((((ProgressMessage.new id).with_stage OperationStage.Downloading).with_bytes
      p.1 p.2).with_message
    ("Downloaded " ++ toString p.1 ++ " bytes"))

/-- The terminal event of a successful download. -/
def downloadCompletionMsg (id : String) (size : ℕ) : ProgressMessage :=
  ((((ProgressMessage.new id).with_stage OperationStage.Completed).with_bytes
      size (some size)).with_message
    "Download completed successfully")

/-- The progress-callback firings delivered by the node during a transfer,
re-emitted one by one through `send_progress`. -/
def emitEvents (id : String) (mk : ℕ × Option ℕ → ProgressMessage) :
    ManagerState → List (ℕ × Option ℕ) → ManagerState
  | s, [] => s
  | s, e :: rest => emitEvents id mk (sendProgress s id (mk e)) rest

/-- Outcomes of the filesystem and node calls made during one upload:
whether the path exists, the `std::fs::metadata` result (file size), the
callback firings the node delivers, and the `upload_file` result (cid). -/
structure UploadEnv where
  fileExists : Bool
  metadata : Except String ℕ
  callbackEvents : List (ℕ × Option ℕ)
  uploadResult : Except String String

/-- Outcomes of the node calls made during one download: the callback
firings and the `download_stream` result (downloaded size). -/
structure DownloadEnv where
  callbackEvents : List (ℕ × Option ℕ)
  downloadResult : Except String ℕ

/-- `CodexManager::upload_file_with_progress` (codex.rs lines 354-439).
`operation_id` stands for the freshly minted UUID. Returns the new state,
the trace of node-capability calls, and the result. -/
def CodexManager.upload_file_with_progress (s : ManagerState)
    (operation_id file_path : String) (env : UploadEnv) :
    ManagerState × List NodeCall × Except CodexError String :=
  let s := registerOp s operation_id
  let s := sendProgress s operation_id (initializingMsg operation_id)
  match s.node with
  | none => (s, [], Except.error CodexError.NodeNotInitialized)
  | some node =>
    if !node.started then
      (s, [NodeCall.isStarted], Except.error CodexError.NodeNotStarted)
    else if !env.fileExists then
      (s, [NodeCall.isStarted], Except.error (CodexError.FileNotFound file_path))
    else
      match env.metadata with
      | Except.error e => (s, [NodeCall.isStarted], Except.error (CodexError.Io e))
      | Except.ok file_size =>
        let s := sendProgress s operation_id (uploadSizeMsg operation_id file_size)
        let s := emitEvents operation_id (uploadCallbackMsg operation_id) s env.callbackEvents
        match env.uploadResult with
        | Except.error e =>
          (s, [NodeCall.isStarted, NodeCall.uploadFile],
            Except.error (CodexError.Upload e))
        | Except.ok cid =>
          let s := sendProgress s operation_id (uploadCompletionMsg operation_id file_size)
          let s := endOp s operation_id
          (s, [NodeCall.isStarted, NodeCall.uploadFile], Except.ok cid)

/-- `CodexManager::download_file_with_progress` (codex.rs lines 441-522).
Note the source checks `cid.is_empty()` only after fetching the node and
querying `is_started` on it. -/
def CodexManager.download_file_with_progress (s : ManagerState)
    (operation_id cid save_path : String) (env : DownloadEnv) :
    ManagerState × List NodeCall × Except CodexError Unit :=
  let s := registerOp s operation_id
  let s := sendProgress s operation_id (initializingMsg operation_id)
  match s.node with
  | none => (s, [], Except.error CodexError.NodeNotInitialized)
  | some node =>
    if !node.started then
      (s, [NodeCall.isStarted], Except.error CodexError.NodeNotStarted)
    else if cid.isEmpty then
      (s, [NodeCall.isStarted],
        Except.error (CodexError.InvalidCid "CID cannot be empty"))
    else
      let s := sendProgress s operation_id (downloadStartMsg operation_id cid)
      let s := emitEvents operation_id (downloadCallbackMsg operation_id) s env.callbackEvents
      match env.downloadResult with
      | Except.error e =>
        (s, [NodeCall.isStarted, NodeCall.downloadStream],
          Except.error (CodexError.Download e))
      | Except.ok size =>
        let s := sendProgress s operation_id (downloadCompletionMsg operation_id size)
        let s := endOp s operation_id
        (s, [NodeCall.isStarted, NodeCall.downloadStream], Except.ok ())

/-- `CodexManager::connect_to_peer` (codex.rs lines 551-575): touches no
manager state, only the node capability. -/
def CodexManager.connect_to_peer (s : ManagerState)
    (peer_id : String) (addresses : List String)
    (res : Except String Unit) : ManagerState × Except CodexError Unit :=
  match s.node with
  | none => (s, Except.error CodexError.NodeNotInitialized)
  | some node =>
    if !node.started then (s, Except.error CodexError.NodeNotStarted)
    else
      match res with
      | Except.error e => (s, Except.error (CodexError.Configuration e))
      | Except.ok _ => (s, Except.ok ())

/-- `CodexManager::get_node_addresses` (codex.rs lines 577-596): touches no
manager state. -/
def CodexManager.get_node_addresses (s : ManagerState)
    (res : Except String (List String)) :
    ManagerState × Except CodexError (List String) :=
  match s.node with
  | none => (s, Except.error CodexError.NodeNotInitialized)
  | some node =>
    if !node.started then (s, Except.error CodexError.NodeNotStarted)
    else
      match res with
      | Except.error e => (s, Except.error (CodexError.Configuration e))
      | Except.ok addrs => (s, Except.ok addrs)

/-- One invocation of a public manager operation, carrying the outcomes of
the external calls it performs. -/
inductive ManagerOp where
  | connectOp (env : ConnectEnv)
  | disconnectOp (stopResult : Except String Unit)
  | uploadOp (operation_id file_path : String) (env : UploadEnv)
  | downloadOp (operation_id cid save_path : String) (env : DownloadEnv)
  | connectToPeerOp (peer_id : String) (addresses : List String)
      (res : Except String Unit)
  | getNodeAddressesOp (res : Except String (List String))
  | getStatusOp
  | getErrorOp
  | getNetworkInfoOp
  | getStorageInfoOp

/-- The state effect of one public operation (queries read, never write). -/
def stepOp (s : ManagerState) (op : ManagerOp) : ManagerState :=
  match op with
  | ManagerOp.connectOp env => (CodexManager.connect s env).1
  | ManagerOp.disconnectOp stopRes => (CodexManager.disconnect s stopRes).1
  | ManagerOp.uploadOp id fp env =>
      (CodexManager.upload_file_with_progress s id fp env).1
  | ManagerOp.downloadOp id cid sp env =>
      (CodexManager.download_file_with_progress s id cid sp env).1
  | ManagerOp.connectToPeerOp pid addrs res =>
      (CodexManager.connect_to_peer s pid addrs res).1
  | ManagerOp.getNodeAddressesOp res => (CodexManager.get_node_addresses s res).1
  | ManagerOp.getStatusOp => s
  | ManagerOp.getErrorOp => s
  | ManagerOp.getNetworkInfoOp => s
  | ManagerOp.getStorageInfoOp => s

/-- Run a sequence of public operations. -/
def runOps : ManagerState → List ManagerOp → ManagerState
  | s, [] => s
  | s, op :: rest => runOps (stepOp s op) rest

/-- Does a stage carry a terminal failure? -/
def isFailed : OperationStage → Bool
  | OperationStage.Failed _ => true
  | _ => false

/-! ## Helper lemmas about the registry, channels and message builders -/

theorem insertId_self_mem (l : List String) (id : String) : id ∈ insertId l id := by
  unfold insertId
  split
  · assumption
  · exact List.mem_cons_self id l

theorem removeId_not_mem (l : List String) (id : String) : id ∉ removeId l id := by
  intro h
  have h2 := List.mem_filter.mp h
  simp at h2

@[simp] theorem registerOp_node (s : ManagerState) (id : String) :
    (registerOp s id).node = s.node := rfl

@[simp] theorem registerOp_status (s : ManagerState) (id : String) :
    (registerOp s id).status = s.status := rfl

@[simp] theorem registerOp_error (s : ManagerState) (id : String) :
    (registerOp s id).error = s.error := rfl

@[simp] theorem registerOp_registry (s : ManagerState) (id : String) :
    (registerOp s id).registry = insertId s.registry id := rfl

@[simp] theorem registerOp_transcript_self (s : ManagerState) (id : String) :
    (registerOp s id).transcript id = [] := by
  simp [registerOp]

@[simp] theorem sendProgress_node (s : ManagerState) (id : String) (m : ProgressMessage) :
    (sendProgress s id m).node = s.node := by
  unfold sendProgress
  split <;> rfl

@[simp] theorem sendProgress_status (s : ManagerState) (id : String) (m : ProgressMessage) :
    (sendProgress s id m).status = s.status := by
  unfold sendProgress
  split <;> rfl

@[simp] theorem sendProgress_error (s : ManagerState) (id : String) (m : ProgressMessage) :
    (sendProgress s id m).error = s.error := by
  unfold sendProgress
  split <;> rfl

@[simp] theorem sendProgress_registry (s : ManagerState) (id : String) (m : ProgressMessage) :
    (sendProgress s id m).registry = s.registry := by
  unfold sendProgress
  split <;> rfl

@[simp] theorem sendProgress_storage (s : ManagerState) (id : String) (m : ProgressMessage) :
    (sendProgress s id m).storage_info = s.storage_info := by
  unfold sendProgress
  split <;> rfl

theorem sendProgress_transcript_self (s : ManagerState) (id : String)
    (m : ProgressMessage) (h : id ∈ s.registry) :
    (sendProgress s id m).transcript id = s.transcript id ++ [m] := by
  unfold sendProgress
  rw [if_pos h]
  simp

@[simp] theorem endOp_node (s : ManagerState) (id : String) :
    (endOp s id).node = s.node := rfl

@[simp] theorem endOp_status (s : ManagerState) (id : String) :
    (endOp s id).status = s.status := rfl

@[simp] theorem endOp_error (s : ManagerState) (id : String) :
    (endOp s id).error = s.error := rfl

@[simp] theorem endOp_registry (s : ManagerState) (id : String) :
    (endOp s id).registry = removeId s.registry id := rfl

@[simp] theorem endOp_transcript (s : ManagerState) (id k : String) :
    (endOp s id).transcript k = s.transcript k := rfl

theorem emitEvents_node (id : String) (mk : ℕ × Option ℕ → ProgressMessage) :
    ∀ (evs : List (ℕ × Option ℕ)) (s : ManagerState),
      (emitEvents id mk s evs).node = s.node := by
  intro evs
  induction evs with
  | nil => intro s; rfl
  | cons e rest ih =>
    intro s
    rw [emitEvents, ih, sendProgress_node]

theorem emitEvents_status (id : String) (mk : ℕ × Option ℕ → ProgressMessage) :
    ∀ (evs : List (ℕ × Option ℕ)) (s : ManagerState),
      (emitEvents id mk s evs).status = s.status := by
  intro evs
  induction evs with
  | nil => intro s; rfl
  | cons e rest ih =>
    intro s
    rw [emitEvents, ih, sendProgress_status]

theorem emitEvents_error (id : String) (mk : ℕ × Option ℕ → ProgressMessage) :
    ∀ (evs : List (ℕ × Option ℕ)) (s : ManagerState),
      (emitEvents id mk s evs).error = s.error := by
  intro evs
  induction evs with
  | nil => intro s; rfl
  | cons e rest ih =>
    intro s
    rw [emitEvents, ih, sendProgress_error]

theorem emitEvents_registry (id : String) (mk : ℕ × Option ℕ → ProgressMessage) :
    ∀ (evs : List (ℕ × Option ℕ)) (s : ManagerState),
      (emitEvents id mk s evs).registry = s.registry := by
  intro evs
  induction evs with
  | nil => intro s; rfl
  | cons e rest ih =>
    intro s
    rw [emitEvents, ih, sendProgress_registry]

theorem emitEvents_storage (id : String) (mk : ℕ × Option ℕ → ProgressMessage) :
    ∀ (evs : List (ℕ × Option ℕ)) (s : ManagerState),
      (emitEvents id mk s evs).storage_info = s.storage_info := by
  intro evs
  induction evs with
  | nil => intro s; rfl
  | cons e rest ih =>
    intro s
    rw [emitEvents, ih, sendProgress_storage]

theorem emitEvents_transcript_self (id : String) (mk : ℕ × Option ℕ → ProgressMessage) :
    ∀ (evs : List (ℕ × Option ℕ)) (s : ManagerState), id ∈ s.registry →
      (emitEvents id mk s evs).transcript id = s.transcript id ++ evs.map mk := by
  intro evs
  induction evs with
  | nil => intro s _; simp [emitEvents]
  | cons e rest ih =>
    intro s h
    rw [emitEvents]
    have h2 : id ∈ (sendProgress s id (mk e)).registry := by
      rw [sendProgress_registry]; exact h
    rw [ih _ h2, sendProgress_transcript_self s id (mk e) h]
    simp

@[simp] theorem with_stage_stage (m : ProgressMessage) (st : OperationStage) :
    (m.with_stage st).stage = st := rfl

@[simp] theorem with_message_stage (m : ProgressMessage) (msg : String) :
    (m.with_message msg).stage = m.stage := rfl

@[simp] theorem with_bytes_stage (m : ProgressMessage) (b : ℕ) (t : Option ℕ) :
    (m.with_bytes b t).stage = m.stage := by
  cases t <;> rfl

@[simp] theorem initializingMsg_stage (id : String) :
    (initializingMsg id).stage = OperationStage.Initializing := rfl

@[simp] theorem uploadSizeMsg_stage (id : String) (sz : ℕ) :
    (uploadSizeMsg id sz).stage = OperationStage.Uploading := by
  simp [uploadSizeMsg]

@[simp] theorem uploadCallbackMsg_stage (id : String) (p : ℕ × Option ℕ) :
    (uploadCallbackMsg id p).stage = OperationStage.Uploading := by
  simp [uploadCallbackMsg]

@[simp] theorem uploadCompletionMsg_stage (id : String) (sz : ℕ) :
    (uploadCompletionMsg id sz).stage = OperationStage.Completed := by
  simp [uploadCompletionMsg]

@[simp] theorem downloadStartMsg_stage (id cid : String) :
    (downloadStartMsg id cid).stage = OperationStage.Downloading := rfl

@[simp] theorem downloadCallbackMsg_stage (id : String) (p : ℕ × Option ℕ) :
    (downloadCallbackMsg id p).stage = OperationStage.Downloading := by
  simp [downloadCallbackMsg]

@[simp] theorem downloadCompletionMsg_stage (id : String) (sz : ℕ) :
    (downloadCompletionMsg id sz).stage = OperationStage.Completed := by
  simp [downloadCompletionMsg]

/-! ## Characterization lemmas about the operations -/

theorem connect_error_none (s : ManagerState) (env : ConnectEnv) :
    ((CodexManager.connect s env).1).error = none := by
  unfold CodexManager.connect
  cases env.createResult with
  | error e => rfl
  | ok n =>
    cases env.startResult with
    | error e => rfl
    | ok u => rfl

theorem connect_storage (s : ManagerState) (env : ConnectEnv) :
    ((CodexManager.connect s env).1).storage_info = s.storage_info := by
  unfold CodexManager.connect
  cases env.createResult with
  | error e => rfl
  | ok n =>
    cases env.startResult with
    | error e => rfl
    | ok u => rfl

theorem disconnect_error_none (s : ManagerState) (stopRes : Except String Unit) :
    ((CodexManager.disconnect s stopRes).1).error = none := rfl

theorem connect_to_peer_state (s : ManagerState) (pid : String)
    (addrs : List String) (res : Except String Unit) :
    (CodexManager.connect_to_peer s pid addrs res).1 = s := by
  unfold CodexManager.connect_to_peer
  cases s.node with
  | none => rfl
  | some n =>
    obtain ⟨b⟩ := n
    cases b <;> cases res <;> rfl

theorem get_node_addresses_state (s : ManagerState)
    (res : Except String (List String)) :
    (CodexManager.get_node_addresses s res).1 = s := by
  unfold CodexManager.get_node_addresses
  cases s.node with
  | none => rfl
  | some n =>
    obtain ⟨b⟩ := n
    cases b <;> cases res <;> rfl

theorem upload_error_field (s : ManagerState) (id fp : String) (env : UploadEnv) :
    ((CodexManager.upload_file_with_progress s id fp env).1).error = s.error := by
  obtain ⟨fe, md, cbs, ur⟩ := env
  unfold CodexManager.upload_file_with_progress
  simp only [sendProgress_node, registerOp_node]
  cases s.node with
  | none => simp
  | some n =>
    obtain ⟨b⟩ := n
    cases b with
    | false => simp
    | true =>
      cases fe with
      | false => simp
      | true =>
        cases md with
        | error e => simp
        | ok sz =>
          cases ur with
          | error e => simp [emitEvents_error]
          | ok cid => simp [emitEvents_error]

theorem download_error_field (s : ManagerState) (id cid sp : String)
    (env : DownloadEnv) :
    ((CodexManager.download_file_with_progress s id cid sp env).1).error = s.error := by
  obtain ⟨cbs, dr⟩ := env
  unfold CodexManager.download_file_with_progress
  simp only [sendProgress_node, registerOp_node]
  cases s.node with
  | none => simp
  | some n =>
    obtain ⟨b⟩ := n
    cases b with
    | false => simp
    | true =>
      cases h : cid.isEmpty with
      | true => simp [h]
      | false =>
        cases dr with
        | error e => simp [h, emitEvents_error]
        | ok sz => simp [h, emitEvents_error]

/-- The upload's registry effect, split by outcome: errors leave the minted
id registered; success removes it. -/
theorem upload_registry_char (s : ManagerState) (id fp : String) (env : UploadEnv) :
    (((CodexManager.upload_file_with_progress s id fp env).1).registry
        = insertId s.registry id ∧
      ∃ e, (CodexManager.upload_file_with_progress s id fp env).2.2 = Except.error e) ∨
    (((CodexManager.upload_file_with_progress s id fp env).1).registry
        = removeId (insertId s.registry id) id ∧
      ∃ c, (CodexManager.upload_file_with_progress s id fp env).2.2 = Except.ok c) := by
  obtain ⟨fe, md, cbs, ur⟩ := env
  unfold CodexManager.upload_file_with_progress
  simp only [sendProgress_node, registerOp_node]
  cases s.node with
  | none => left; simp
  | some n =>
    obtain ⟨b⟩ := n
    cases b with
    | false => left; simp
    | true =>
      cases fe with
      | false => left; simp
      | true =>
        cases md with
        | error e => left; simp
        | ok sz =>
          cases ur with
          | error e => left; simp [emitEvents_registry]
          | ok cid => right; simp [emitEvents_registry]

/-- The download's registry effect, split by outcome. -/
theorem download_registry_char (s : ManagerState) (id cid sp : String)
    (env : DownloadEnv) :
    (((CodexManager.download_file_with_progress s id cid sp env).1).registry
        = insertId s.registry id ∧
      ∃ e, (CodexManager.download_file_with_progress s id cid sp env).2.2
        = Except.error e) ∨
    (((CodexManager.download_file_with_progress s id cid sp env).1).registry
        = removeId (insertId s.registry id) id ∧
      (CodexManager.download_file_with_progress s id cid sp env).2.2
        = Except.ok ()) := by
  obtain ⟨cbs, dr⟩ := env
  unfold CodexManager.download_file_with_progress
  simp only [sendProgress_node, registerOp_node]
  cases s.node with
  | none => left; simp
  | some n =>
    obtain ⟨b⟩ := n
    cases b with
    | false => left; simp
    | true =>
      cases h : cid.isEmpty with
      | true => left; simp [h]
      | false =>
        cases dr with
        | error e => left; simp [h, emitEvents_registry]
        | ok sz => right; simp [h, emitEvents_registry]

/-! ## Concrete fixtures for counterexamples and witnesses -/

def testConfig : DextoolsConfig :=
  { data_dir := "/tmp/dextools/codex_data"
    storage_quota := 1024 * 1024 * 1024
    max_peers := 50
    discovery_port := 8089
    log_level := LogLevel.Info
    auto_connect := false }

def config2048 : DextoolsConfig :=
  { testConfig with storage_quota := 2048 }

def startedNode : CodexNode := { started := true }

/-- A manager that has successfully connected: started node, status
Connected. -/
def sConnected : ManagerState :=
  { CodexManager.initialState testConfig with
      node := some startedNode
      status := CodexConnectionStatus.Connected }

def failConnectEnv : ConnectEnv :=
  { createResult := Except.error "boom"
    startResult := Except.ok ()
    peerId := Except.ok "peer"
    version := Except.ok "v1"
    repoPath := Except.ok "/repo" }

def okConnectEnv : ConnectEnv :=
  { createResult := Except.ok { started := false }
    startResult := Except.ok ()
    peerId := Except.ok "peer"
    version := Except.ok "v1"
    repoPath := Except.ok "/repo" }

def missingFileEnv : UploadEnv :=
  { fileExists := false
    metadata := Except.error "no such file"
    callbackEvents := []
    uploadResult := Except.error "unreached" }

def failUploadEnv : UploadEnv :=
  { fileExists := true
    metadata := Except.ok 100
    callbackEvents := []
    uploadResult := Except.error "network failure" }

def emptyCidEnv : DownloadEnv :=
  { callbackEvents := []
    downloadResult := Except.error "unreached" }

/-! ## Claims -/

/-- C9: `ProgressMessage::with_bytes` stores the byte counts and sets the
progress fraction to bytes_processed / total_bytes when the total is known
(`Some`), leaving the fraction at its previous value when the total is
unknown (`None`). The `f64` fraction is modelled as `ℚ`. -/
theorem C9_with_bytes_progress :
    ∀ (m : ProgressMessage) (b tot : ℕ),
      (m.with_bytes b (some tot)).progress = (b : ℚ) / (tot : ℚ) ∧
      (m.with_bytes b none).progress = m.progress ∧
      (m.with_bytes b (some tot)).bytes_processed = b ∧
      (m.with_bytes b (some tot)).total_bytes = some tot ∧
      (m.with_bytes b none).bytes_processed = b ∧
      (m.with_bytes b none).total_bytes = none := by
  intro m b tot
  exact ⟨rfl, rfl, rfl, rfl, rfl, rfl⟩

/-- C1 counterexample: on a fresh manager, a `connect` whose node
construction fails returns the typed `NodeCreation` error, but leaves the
status register at `Connecting` (never `Error`) and the error register at
`none` (the failure reason "boom" is not stored), contradicting the claim. -/
theorem C1_counterexample :
    (CodexManager.connect (CodexManager.initialState testConfig) failConnectEnv).2
        = Except.error (CodexError.NodeCreation "boom") ∧
    (CodexManager.connect (CodexManager.initialState testConfig) failConnectEnv).1.status
        = CodexConnectionStatus.Connecting ∧
    (CodexManager.connect (CodexManager.initialState testConfig) failConnectEnv).1.status
        ≠ CodexConnectionStatus.Error ∧
    (CodexManager.connect (CodexManager.initialState testConfig) failConnectEnv).1.error
        = none := by
  refine ⟨rfl, rfl, ?_, rfl⟩
  decide

/-- C1 amended: if during `connect` the node construction or start fails,
connect returns the typed error (NodeCreation or NodeStart) and stores no
partial capability (the node slot is left exactly as it was), but the status
register is left at `Connecting` — not set to `Error` — and the error
register is left cleared (`none`) — the failure reason is not stored. -/
theorem C1_connect_failure_behavior :
    ∀ (s : ManagerState) (env : ConnectEnv),
      (∀ e, env.createResult = Except.error e →
        CodexManager.connect s env =
          ({ s with status := CodexConnectionStatus.Connecting, error := none },
            Except.error (CodexError.NodeCreation e))) ∧
      (∀ n e, env.createResult = Except.ok n →
          env.startResult = Except.error e →
        CodexManager.connect s env =
          ({ s with status := CodexConnectionStatus.Connecting, error := none },
            Except.error (CodexError.NodeStart e))) := by
  intro s env
  constructor
  · intro e he
    unfold CodexManager.connect
    rw [he]
  · intro n e hcr hst
    unfold CodexManager.connect
    rw [hcr, hst]

/-- C1 witness: the amended behavior at a concrete failing construction. -/
theorem C1_witness :
    CodexManager.connect (CodexManager.initialState testConfig) failConnectEnv =
      ({ CodexManager.initialState testConfig with
          status := CodexConnectionStatus.Connecting, error := none },
        Except.error (CodexError.NodeCreation "boom")) :=
  (C1_connect_failure_behavior (CodexManager.initialState testConfig)
    failConnectEnv).1 "boom" rfl

/-- C4 counterexample: on a manager whose status is already `Connected`,
`connect` is not a fail-fast no-op: it proceeds, mutates the status register
to `Connecting`, and (here, with a failing construction) returns an error
instead of immediate success. -/
theorem C4_counterexample :
    sConnected.status = CodexConnectionStatus.Connected ∧
    (CodexManager.connect sConnected failConnectEnv).2
        = Except.error (CodexError.NodeCreation "boom") ∧
    (CodexManager.connect sConnected failConnectEnv).1.status
        = CodexConnectionStatus.Connecting := by
  exact ⟨rfl, rfl, rfl⟩

/-- C4 amended: `connect` performs no fail-fast status check at all — its
behavior is fully independent of the prior status register value (including
`Connecting` and `Connected`); it always proceeds to set status to
`Connecting`, clear the error, and re-run node construction and start. -/
theorem C4_connect_ignores_status :
    ∀ (s : ManagerState) (st : CodexConnectionStatus) (env : ConnectEnv),
      CodexManager.connect { s with status := st } env
        = CodexManager.connect s env := by
  intro s st env
  rfl

/-- C7: `disconnect` on a manager that is already fully disconnected
(status Disconnected, empty node slot, live network fields cleared, no
stored error) returns success and is observably a no-op: the state is
returned unchanged (status, node slot, network and storage snapshots, error
register, and progress registry all included). -/
theorem C7_disconnect_idempotent :
    ∀ (s : ManagerState) (stopRes : Except String Unit),
      s.status = CodexConnectionStatus.Disconnected →
      s.node = none →
      s.error = none →
      s.network_info.peer_id = none →
      s.network_info.version = none →
      s.network_info.repo_path = none →
      s.network_info.connected_peers = 0 →
      CodexManager.disconnect s stopRes = (s, Except.ok ()) := by
  intro s stopRes h1 h2 h3 h4 h5 h6 h7
  obtain ⟨node, config, status, error, registry, transcript, ni, si⟩ := s
  obtain ⟨p, v, rp, cp, mp⟩ := ni
  simp only at h1 h2 h3 h4 h5 h6 h7
  subst h1 h2 h3 h4 h5 h6 h7
  rfl

/-- C7 witness: disconnect on the fresh (fully disconnected) manager. -/
theorem C7_witness :
    CodexManager.disconnect (CodexManager.initialState testConfig) (Except.ok ())
      = (CodexManager.initialState testConfig, Except.ok ()) :=
  C7_disconnect_idempotent (CodexManager.initialState testConfig) (Except.ok ())
    rfl rfl rfl rfl rfl rfl rfl

/-- C2 counterexample: an upload of a non-existent path returns the
`FileNotFound` error but leaves the freshly minted operation id registered —
the progress registry entry is NOT removed on this error exit path, so the
registry has grown (a leaked entry), contradicting the claim. -/
theorem C2_counterexample :
    (CodexManager.upload_file_with_progress sConnected "op1" "missing.txt"
        missingFileEnv).2.2
      = Except.error (CodexError.FileNotFound "missing.txt") ∧
    "op1" ∈ (CodexManager.upload_file_with_progress sConnected "op1" "missing.txt"
        missingFileEnv).1.registry ∧
    sConnected.registry = [] := by
  refine ⟨rfl, ?_, rfl⟩
  decide

/-- C2 amended: the minted operation id's registry entry is removed exactly
once, but only on the success exit path of
`upload_file_with_progress`/`download_file_with_progress`; on every error
exit path (missing node, unstarted node, missing file, metadata failure,
empty cid, transfer failure) the entry remains registered, so failed calls
grow the registry. -/
theorem C2_registry_removed_only_on_success :
    ∀ (s : ManagerState) (id fp : String) (env : UploadEnv)
      (s2 : ManagerState) (id2 cid sp : String) (env2 : DownloadEnv),
      (∀ c, (CodexManager.upload_file_with_progress s id fp env).2.2
            = Except.ok c →
        id ∉ (CodexManager.upload_file_with_progress s id fp env).1.registry) ∧
      (∀ e, (CodexManager.upload_file_with_progress s id fp env).2.2
            = Except.error e →
        id ∈ (CodexManager.upload_file_with_progress s id fp env).1.registry) ∧
      ((CodexManager.download_file_with_progress s2 id2 cid sp env2).2.2
            = Except.ok () →
        id2 ∉ (CodexManager.download_file_with_progress s2 id2 cid sp env2).1.registry) ∧
      (∀ e, (CodexManager.download_file_with_progress s2 id2 cid sp env2).2.2
            = Except.error e →
        id2 ∈ (CodexManager.download_file_with_progress s2 id2 cid sp env2).1.registry) := by
  intro s id fp env s2 id2 cid sp env2
  refine ⟨?_, ?_, ?_, ?_⟩
  · intro c hc
    rcases upload_registry_char s id fp env with ⟨hr, e, he⟩ | ⟨hr, c2, he⟩
    · rw [hc] at he
      exact absurd he (by simp)
    · rw [hr]
      exact removeId_not_mem _ _
  · intro e he2
    rcases upload_registry_char s id fp env with ⟨hr, e2, he⟩ | ⟨hr, c, he⟩
    · rw [hr]
      exact insertId_self_mem _ _
    · rw [he2] at he
      exact absurd he (by simp)
  · intro hd
    rcases download_registry_char s2 id2 cid sp env2 with ⟨hr, e, he⟩ | ⟨hr, he⟩
    · rw [hd] at he
      exact absurd he (by simp)
    · rw [hr]
      exact removeId_not_mem _ _
  · intro e he2
    rcases download_registry_char s2 id2 cid sp env2 with ⟨hr, e2, he⟩ | ⟨hr, he⟩
    · rw [hr]
      exact insertId_self_mem _ _
    · rw [he2] at he
      exact absurd he (by simp)

/-- C2 witness: the amended statement applied to the concrete failed upload
(missing file): the entry is still registered after the error return. -/
theorem C2_witness :
    "op1" ∈ (CodexManager.upload_file_with_progress sConnected "op1" "missing.txt"
        missingFileEnv).1.registry :=
  (C2_registry_removed_only_on_success sConnected "op1" "missing.txt" missingFileEnv
      sConnected "op1" "cid" "/tmp/out" emptyCidEnv).2.1
    (CodexError.FileNotFound "missing.txt") rfl

/-- C5 counterexample: with a started node present, a download with an empty
content identifier does return `InvalidCid` — but not "without contacting
the node capability": the capability's `is_started` method is invoked before
the empty-cid check (the call trace is `[isStarted]`, not `[]`),
contradicting the claim. -/
theorem C5_counterexample :
    (CodexManager.download_file_with_progress sConnected "op1" "" "/tmp/out"
        emptyCidEnv).2.2
      = Except.error (CodexError.InvalidCid "CID cannot be empty") ∧
    (CodexManager.download_file_with_progress sConnected "op1" "" "/tmp/out"
        emptyCidEnv).2.1
      = [NodeCall.isStarted] ∧
    NodeCall.isStarted ∈ (CodexManager.download_file_with_progress sConnected
        "op1" "" "/tmp/out" emptyCidEnv).2.1 := by
  refine ⟨rfl, rfl, ?_⟩
  decide

/-- C5 amended: with a started node present, for every save path a download
with an empty content identifier returns `InvalidCid` before the `download`
method of the capability is ever invoked — but after `is_started` has been
queried on it: the capability call trace is exactly `[isStarted]`. (Without
a started node, the `NodeNotInitialized`/`NodeNotStarted` errors take
precedence over `InvalidCid`.) -/
theorem C5_empty_cid_invalidcid :
    ∀ (s : ManagerState) (n : CodexNode) (id save_path : String)
      (env : DownloadEnv),
      s.node = some n → n.started = true →
      (CodexManager.download_file_with_progress s id "" save_path env).2.2
          = Except.error (CodexError.InvalidCid "CID cannot be empty") ∧
      (CodexManager.download_file_with_progress s id "" save_path env).2.1
          = [NodeCall.isStarted] := by
  intro s n id sp env hn hb
  unfold CodexManager.download_file_with_progress
  simp only [sendProgress_node, registerOp_node, hn]
  have he : "".isEmpty = true := by decide
  simp [hb, he]

/-- C5 witness: the amended statement at the concrete connected manager. -/
theorem C5_witness :
    (CodexManager.download_file_with_progress sConnected "op1" "" "/tmp/out"
        emptyCidEnv).2.2
      = Except.error (CodexError.InvalidCid "CID cannot be empty") :=
  (C5_empty_cid_invalidcid sConnected startedNode "op1" "/tmp/out" emptyCidEnv
    rfl rfl).1

/-- C6: with a started node present, an upload of a path that does not exist
returns the `FileNotFound` error, and no event with stage `Uploading` was
emitted on that operation's progress channel before the failure (only the
single `Initializing` event was). -/
theorem C6_upload_missing_file :
    ∀ (s : ManagerState) (n : CodexNode) (id fp : String) (env : UploadEnv),
      s.node = some n → n.started = true → env.fileExists = false →
      (CodexManager.upload_file_with_progress s id fp env).2.2
          = Except.error (CodexError.FileNotFound fp) ∧
      ∀ m ∈ ((CodexManager.upload_file_with_progress s id fp env).1).transcript id,
        m.stage ≠ OperationStage.Uploading := by
  intro s n id fp env hn hb hfe
  unfold CodexManager.upload_file_with_progress
  simp only [sendProgress_node, registerOp_node, hn]
  simp only [hb, hfe, Bool.not_true, Bool.not_false, Bool.false_eq_true,
    if_false, if_true]
  refine ⟨by trivial, ?_⟩
  have hmem : id ∈ (registerOp s id).registry := by
    rw [registerOp_registry]
    exact insertId_self_mem _ _
  rw [sendProgress_transcript_self _ _ _ hmem, registerOp_transcript_self]
  intro m hm
  simp at hm
  subst hm
  simp

/-- C6 witness: the concrete missing-file upload on the connected manager. -/
theorem C6_witness :
    (CodexManager.upload_file_with_progress sConnected "op1" "missing.txt"
        missingFileEnv).2.2
      = Except.error (CodexError.FileNotFound "missing.txt") :=
  (C6_upload_missing_file sConnected startedNode "op1" "missing.txt"
    missingFileEnv rfl rfl rfl).1

/-- Full run of a failed upload past all preconditions: the typed error is
propagated, the entry stays registered, and the channel transcript holds the
Initializing event, the size event, and the callback re-emissions — no
terminal event. -/
theorem upload_fail_run (s : ManagerState) (n : CodexNode) (id fp : String)
    (env : UploadEnv) (sz : ℕ) (e : String)
    (hn : s.node = some n) (hb : n.started = true)
    (hfe : env.fileExists = true) (hmd : env.metadata = Except.ok sz)
    (hur : env.uploadResult = Except.error e) :
    (CodexManager.upload_file_with_progress s id fp env).2.2
        = Except.error (CodexError.Upload e) ∧
    (CodexManager.upload_file_with_progress s id fp env).1.registry
        = insertId s.registry id ∧
    (CodexManager.upload_file_with_progress s id fp env).1.transcript id
        = [initializingMsg id, uploadSizeMsg id sz]
            ++ env.callbackEvents.map (uploadCallbackMsg id) := by
  have h1 : id ∈ (registerOp s id).registry := by
    rw [registerOp_registry]
    exact insertId_self_mem _ _
  have h2 : id ∈ (sendProgress (registerOp s id) id
      (initializingMsg id)).registry := by
    rw [sendProgress_registry]
    exact h1
  have h3 : id ∈ (sendProgress (sendProgress (registerOp s id) id
      (initializingMsg id)) id (uploadSizeMsg id sz)).registry := by
    rw [sendProgress_registry]
    exact h2
  unfold CodexManager.upload_file_with_progress
  simp only [sendProgress_node, registerOp_node, hn]
  simp only [hb, hfe, hmd, hur, Bool.not_true, Bool.false_eq_true, if_false]
  refine ⟨by trivial, ?_, ?_⟩
  · rw [emitEvents_registry, sendProgress_registry, sendProgress_registry,
      registerOp_registry]
  · rw [emitEvents_transcript_self _ _ _ _ h3,
      sendProgress_transcript_self _ _ _ h2,
      sendProgress_transcript_self _ _ _ h1,
      registerOp_transcript_self]
    simp

/-- Full run of a successful upload: the entry is deregistered, and the
channel transcript ends in exactly the terminal Completed event, emitted
just before deregistration. -/
theorem upload_ok_run (s : ManagerState) (n : CodexNode) (id fp : String)
    (env : UploadEnv) (sz : ℕ) (c : String)
    (hn : s.node = some n) (hb : n.started = true)
    (hfe : env.fileExists = true) (hmd : env.metadata = Except.ok sz)
    (hur : env.uploadResult = Except.ok c) :
    (CodexManager.upload_file_with_progress s id fp env).2.2 = Except.ok c ∧
    (CodexManager.upload_file_with_progress s id fp env).1.registry
        = removeId (insertId s.registry id) id ∧
    (CodexManager.upload_file_with_progress s id fp env).1.transcript id
        = ([initializingMsg id, uploadSizeMsg id sz]
            ++ env.callbackEvents.map (uploadCallbackMsg id))
            ++ [uploadCompletionMsg id sz] := by
  have h1 : id ∈ (registerOp s id).registry := by
    rw [registerOp_registry]
    exact insertId_self_mem _ _
  have h2 : id ∈ (sendProgress (registerOp s id) id
      (initializingMsg id)).registry := by
    rw [sendProgress_registry]
    exact h1
  have h3 : id ∈ (sendProgress (sendProgress (registerOp s id) id
      (initializingMsg id)) id (uploadSizeMsg id sz)).registry := by
    rw [sendProgress_registry]
    exact h2
  have h4 : id ∈ (emitEvents id (uploadCallbackMsg id)
      (sendProgress (sendProgress (registerOp s id) id (initializingMsg id))
        id (uploadSizeMsg id sz)) env.callbackEvents).registry := by
    rw [emitEvents_registry]
    exact h3
  unfold CodexManager.upload_file_with_progress
  simp only [sendProgress_node, registerOp_node, hn]
  simp only [hb, hfe, hmd, hur, Bool.not_true, Bool.false_eq_true, if_false]
  refine ⟨by trivial, ?_, ?_⟩
  · rw [endOp_registry, sendProgress_registry, emitEvents_registry,
      sendProgress_registry, sendProgress_registry, registerOp_registry]
  · rw [endOp_transcript,
      sendProgress_transcript_self _ _ _ h4,
      emitEvents_transcript_self _ _ _ _ h3,
      sendProgress_transcript_self _ _ _ h2,
      sendProgress_transcript_self _ _ _ h1,
      registerOp_transcript_self]
    simp

/-- Full run of a failed download past all preconditions: the typed error is
propagated, the entry stays registered, no terminal event on the channel. -/
theorem download_fail_run (s : ManagerState) (n : CodexNode)
    (id cid sp : String) (env : DownloadEnv) (e : String)
    (hn : s.node = some n) (hb : n.started = true)
    (hcid : cid.isEmpty = false)
    (hdr : env.downloadResult = Except.error e) :
    (CodexManager.download_file_with_progress s id cid sp env).2.2
        = Except.error (CodexError.Download e) ∧
    (CodexManager.download_file_with_progress s id cid sp env).1.registry
        = insertId s.registry id ∧
    (CodexManager.download_file_with_progress s id cid sp env).1.transcript id
        = [initializingMsg id, downloadStartMsg id cid]
            ++ env.callbackEvents.map (downloadCallbackMsg id) := by
  have h1 : id ∈ (registerOp s id).registry := by
    rw [registerOp_registry]
    exact insertId_self_mem _ _
  have h2 : id ∈ (sendProgress (registerOp s id) id
      (initializingMsg id)).registry := by
    rw [sendProgress_registry]
    exact h1
  have h3 : id ∈ (sendProgress (sendProgress (registerOp s id) id
      (initializingMsg id)) id (downloadStartMsg id cid)).registry := by
    rw [sendProgress_registry]
    exact h2
  unfold CodexManager.download_file_with_progress
  simp only [sendProgress_node, registerOp_node, hn]
  simp only [hb, hcid, hdr, Bool.not_true, Bool.false_eq_true, if_false]
  refine ⟨by trivial, ?_, ?_⟩
  · rw [emitEvents_registry, sendProgress_registry, sendProgress_registry,
      registerOp_registry]
  · rw [emitEvents_transcript_self _ _ _ _ h3,
      sendProgress_transcript_self _ _ _ h2,
      sendProgress_transcript_self _ _ _ h1,
      registerOp_transcript_self]
    simp

/-- Full run of a successful download: the entry is deregistered, the channel
transcript ends in exactly the terminal Completed event. -/
theorem download_ok_run (s : ManagerState) (n : CodexNode)
    (id cid sp : String) (env : DownloadEnv) (sz : ℕ)
    (hn : s.node = some n) (hb : n.started = true)
    (hcid : cid.isEmpty = false)
    (hdr : env.downloadResult = Except.ok sz) :
    (CodexManager.download_file_with_progress s id cid sp env).2.2
        = Except.ok () ∧
    (CodexManager.download_file_with_progress s id cid sp env).1.registry
        = removeId (insertId s.registry id) id ∧
    (CodexManager.download_file_with_progress s id cid sp env).1.transcript id
        = ([initializingMsg id, downloadStartMsg id cid]
            ++ env.callbackEvents.map (downloadCallbackMsg id))
            ++ [downloadCompletionMsg id sz] := by
  have h1 : id ∈ (registerOp s id).registry := by
    rw [registerOp_registry]
    exact insertId_self_mem _ _
  have h2 : id ∈ (sendProgress (registerOp s id) id
      (initializingMsg id)).registry := by
    rw [sendProgress_registry]
    exact h1
  have h3 : id ∈ (sendProgress (sendProgress (registerOp s id) id
      (initializingMsg id)) id (downloadStartMsg id cid)).registry := by
    rw [sendProgress_registry]
    exact h2
  have h4 : id ∈ (emitEvents id (downloadCallbackMsg id)
      (sendProgress (sendProgress (registerOp s id) id (initializingMsg id))
        id (downloadStartMsg id cid)) env.callbackEvents).registry := by
    rw [emitEvents_registry]
    exact h3
  unfold CodexManager.download_file_with_progress
  simp only [sendProgress_node, registerOp_node, hn]
  simp only [hb, hcid, hdr, Bool.not_true, Bool.false_eq_true, if_false]
  refine ⟨by trivial, ?_, ?_⟩
  · rw [endOp_registry, sendProgress_registry, emitEvents_registry,
      sendProgress_registry, sendProgress_registry, registerOp_registry]
  · rw [endOp_transcript,
      sendProgress_transcript_self _ _ _ h4,
      emitEvents_transcript_self _ _ _ _ h3,
      sendProgress_transcript_self _ _ _ h2,
      sendProgress_transcript_self _ _ _ h1,
      registerOp_transcript_self]
    simp

/-- C3 counterexample: a delegated-transfer failure (upload returning an
error) propagates the typed error, but NO terminal `Failed` event is emitted
on the operation's channel (every event on the transcript is non-Failed) and
the registry entry is NOT removed — contradicting both the
"Failed-before-removal" part and the "exactly one terminal event before
removal" part of the claim. -/
theorem C3_counterexample :
    (CodexManager.upload_file_with_progress sConnected "op1" "file.txt"
        failUploadEnv).2.2
      = Except.error (CodexError.Upload "network failure") ∧
    "op1" ∈ (CodexManager.upload_file_with_progress sConnected "op1" "file.txt"
        failUploadEnv).1.registry ∧
    ((CodexManager.upload_file_with_progress sConnected "op1" "file.txt"
        failUploadEnv).1.transcript "op1").all
      (fun m => !isFailed m.stage) = true := by
  refine ⟨rfl, by decide, by decide⟩

/-- C3 amended: when the delegated transfer against the node capability
fails, the code emits no terminal event at all on the operation's channel
(no `Failed` event appears in the transcript) and does not remove the
registry entry; it only propagates the typed error. A terminal event exists
only on the success path: there the last event on the channel before the
entry's removal is exactly the single `Completed` event. -/
theorem C3_terminal_event_behavior :
    ∀ (s : ManagerState) (n : CodexNode) (id fp : String) (env : UploadEnv)
      (sz : ℕ) (s2 : ManagerState) (n2 : CodexNode) (id2 cid sp : String)
      (env2 : DownloadEnv),
      s.node = some n → n.started = true →
      env.fileExists = true → env.metadata = Except.ok sz →
      s2.node = some n2 → n2.started = true → cid.isEmpty = false →
      (∀ e, env.uploadResult = Except.error e →
        (CodexManager.upload_file_with_progress s id fp env).2.2
            = Except.error (CodexError.Upload e) ∧
        id ∈ (CodexManager.upload_file_with_progress s id fp env).1.registry ∧
        ∀ m ∈ (CodexManager.upload_file_with_progress s id fp env).1.transcript id,
          isFailed m.stage = false) ∧
      (∀ c, env.uploadResult = Except.ok c →
        id ∉ (CodexManager.upload_file_with_progress s id fp env).1.registry ∧
        ((CodexManager.upload_file_with_progress s id fp env).1.transcript id).getLast?
            = some (uploadCompletionMsg id sz) ∧
        (uploadCompletionMsg id sz).stage = OperationStage.Completed) ∧
      (∀ e, env2.downloadResult = Except.error e →
        (CodexManager.download_file_with_progress s2 id2 cid sp env2).2.2
            = Except.error (CodexError.Download e) ∧
        id2 ∈ (CodexManager.download_file_with_progress s2 id2 cid sp env2).1.registry ∧
        ∀ m ∈ (CodexManager.download_file_with_progress s2 id2 cid sp env2).1.transcript id2,
          isFailed m.stage = false) ∧
      (∀ szd, env2.downloadResult = Except.ok szd →
        id2 ∉ (CodexManager.download_file_with_progress s2 id2 cid sp env2).1.registry ∧
        ((CodexManager.download_file_with_progress s2 id2 cid sp env2).1.transcript id2).getLast?
            = some (downloadCompletionMsg id2 szd) ∧
        (downloadCompletionMsg id2 szd).stage = OperationStage.Completed) := by
  intro s n id fp env sz s2 n2 id2 cid sp env2 hn hb hfe hmd hn2 hb2 hcid
  refine ⟨?_, ?_, ?_, ?_⟩
  · intro e hur
    obtain ⟨he, hr, ht⟩ := upload_fail_run s n id fp env sz e hn hb hfe hmd hur
    refine ⟨he, ?_, ?_⟩
    · rw [hr]
      exact insertId_self_mem _ _
    · rw [ht]
      intro m hm
      simp only [List.mem_append, List.mem_cons, List.mem_map,
        List.not_mem_nil, or_false] at hm
      rcases hm with (h | h) | ⟨p, _, h⟩ <;> subst h <;> simp [isFailed]
  · intro c hur
    obtain ⟨he, hr, ht⟩ := upload_ok_run s n id fp env sz c hn hb hfe hmd hur
    refine ⟨?_, ?_, by simp [isFailed]⟩
    · rw [hr]
      exact removeId_not_mem _ _
    · rw [ht]
      exact List.getLast?_concat _
  · intro e hdr
    obtain ⟨he, hr, ht⟩ := download_fail_run s2 n2 id2 cid sp env2 e hn2 hb2 hcid hdr
    refine ⟨he, ?_, ?_⟩
    · rw [hr]
      exact insertId_self_mem _ _
    · rw [ht]
      intro m hm
      simp only [List.mem_append, List.mem_cons, List.mem_map,
        List.not_mem_nil, or_false] at hm
      rcases hm with (h | h) | ⟨p, _, h⟩ <;> subst h <;> simp [isFailed]
  · intro szd hdr
    obtain ⟨he, hr, ht⟩ := download_ok_run s2 n2 id2 cid sp env2 szd hn2 hb2 hcid hdr
    refine ⟨?_, ?_, by simp [isFailed]⟩
    · rw [hr]
      exact removeId_not_mem _ _
    · rw [ht]
      exact List.getLast?_concat _

/-- C3 witness: the amended statement evaluated on the concrete failed
upload (a transfer failure carries the typed Upload error out). -/
theorem C3_witness :
    (CodexManager.upload_file_with_progress sConnected "op1" "file.txt"
        failUploadEnv).2.2
      = Except.error (CodexError.Upload "network failure") :=
  ((C3_terminal_event_behavior sConnected startedNode "op1" "file.txt"
      failUploadEnv 100 sConnected startedNode "op2" "cid" "/tmp/out"
      emptyCidEnv rfl rfl rfl rfl rfl rfl (by decide)).1
    "network failure" rfl).1

/-- C8 counterexample: constructing a manager with a configured storage
quota of 2048 bytes still seeds the storage snapshot with the hardcoded
1 GiB (1073741824) total/available — not the configured capacity —
contradicting the claim. -/
theorem C8_counterexample :
    CodexManager.new config2048 okConnectEnv
        = Except.ok (CodexManager.initialState config2048) ∧
    config2048.storage_quota = 2048 ∧
    (CodexManager.get_storage_info (CodexManager.initialState config2048)).total_bytes
        = 1073741824 ∧
    (CodexManager.get_storage_info (CodexManager.initialState config2048)).total_bytes
        ≠ config2048.storage_quota ∧
    (CodexManager.get_storage_info (CodexManager.initialState config2048)).available_bytes
        ≠ config2048.storage_quota := by
  refine ⟨rfl, rfl, rfl, by decide, by decide⟩

/-- C8 amended: the storage snapshot returned by `get_storage_info` is seeded
at manager construction with zero used bytes, zero block count, and the
hardcoded literal 1 GiB (1073741824 bytes) as total and available bytes —
independent of the configured `storage_quota` (the two coincide only at the
default 1 GiB quota). -/
theorem C8_storage_seed_hardcoded :
    ∀ (config : DextoolsConfig) (env : ConnectEnv) (m : ManagerState),
      CodexManager.new config env = Except.ok m →
      CodexManager.get_storage_info m =
        { used_bytes := 0
          total_bytes := 1073741824
          available_bytes := 1073741824
          block_count := 0 } := by
  intro config env m h
  unfold CodexManager.new at h
  cases hac : config.auto_connect with
  | true =>
    rw [hac] at h
    simp only [if_true] at h
    rcases hc : CodexManager.connect (CodexManager.initialState config) env
      with ⟨m2, r⟩
    rw [hc] at h
    cases r with
    | ok u =>
      simp only [Except.ok.injEq] at h
      subst h
      have hst := connect_storage (CodexManager.initialState config) env
      rw [hc] at hst
      unfold CodexManager.get_storage_info
      rw [hst]
      rfl
    | error e => simp at h
  | false =>
    rw [hac] at h
    simp only [Bool.false_eq_true, if_false, Except.ok.injEq] at h
    subst h
    rfl

/-- C8 witness: the amended seeding fact at the concrete quota-2048 config. -/
theorem C8_witness :
    CodexManager.get_storage_info (CodexManager.initialState config2048) =
      { used_bytes := 0
        total_bytes := 1073741824
        available_bytes := 1073741824
        block_count := 0 } :=
  C8_storage_seed_hardcoded config2048 okConnectEnv
    (CodexManager.initialState config2048) rfl

/-- Every single public operation leaves the error register `none` when it
was `none` before (connect and disconnect overwrite it with `none`; no other
operation touches it). -/
theorem stepOp_error_none (s : ManagerState) (op : ManagerOp)
    (h : s.error = none) : (stepOp s op).error = none := by
  cases op with
  | connectOp env => exact connect_error_none s env
  | disconnectOp r => exact disconnect_error_none s r
  | uploadOp id fp env =>
    show ((CodexManager.upload_file_with_progress s id fp env).1).error = none
    rw [upload_error_field]
    exact h
  | downloadOp id cid sp env =>
    show ((CodexManager.download_file_with_progress s id cid sp env).1).error = none
    rw [download_error_field]
    exact h
  | connectToPeerOp pid addrs r =>
    show ((CodexManager.connect_to_peer s pid addrs r).1).error = none
    rw [connect_to_peer_state]
    exact h
  | getNodeAddressesOp r =>
    show ((CodexManager.get_node_addresses s r).1).error = none
    rw [get_node_addresses_state]
    exact h
  | getStatusOp => exact h
  | getErrorOp => exact h
  | getNetworkInfoOp => exact h
  | getStorageInfoOp => exact h

theorem runOps_error_none :
    ∀ (ops : List ManagerOp) (s : ManagerState),
      s.error = none → (runOps s ops).error = none := by
  intro ops
  induction ops with
  | nil => intro s h; exact h
  | cons op rest ih =>
    intro s h
    rw [runOps]
    exact ih _ (stepOp_error_none s op h)

/-- A manager returned by `CodexManager::new` starts with an empty error
register. -/
theorem new_error_none (config : DextoolsConfig) (env : ConnectEnv)
    (m : ManagerState) (h : CodexManager.new config env = Except.ok m) :
    m.error = none := by
  unfold CodexManager.new at h
  cases hac : config.auto_connect with
  | true =>
    rw [hac] at h
    simp only [if_true] at h
    rcases hc : CodexManager.connect (CodexManager.initialState config) env
      with ⟨m2, r⟩
    rw [hc] at h
    cases r with
    | ok u =>
      simp only [Except.ok.injEq] at h
      subst h
      have he := connect_error_none (CodexManager.initialState config) env
      rw [hc] at he
      exact he
    | error e => simp at h
  | false =>
    rw [hac] at h
    simp only [Bool.false_eq_true, if_false, Except.ok.injEq] at h
    subst h
    rfl

/-- C10: after any sequence of the manager's public operations (connect,
disconnect, uploads, downloads, peer connection, address queries, and the
read-only getters) starting from any manager constructed by `new`,
`get_error` returns `none`: the error register is only ever written with
`none` and no operation ever stores an error value in it. -/
theorem C10_get_error_always_none :
    ∀ (config : DextoolsConfig) (env : ConnectEnv) (m : ManagerState)
      (ops : List ManagerOp),
      CodexManager.new config env = Except.ok m →
      CodexManager.get_error (runOps m ops) = none := by
  intro config env m ops h
  unfold CodexManager.get_error
  exact runOps_error_none ops m (new_error_none config env m h)

/-- C10 witness: a concrete operation sequence (connect, a failing upload,
an empty-cid download, disconnect) on a freshly constructed manager leaves
`get_error` at `none`. -/
theorem C10_witness :
    CodexManager.get_error (runOps (CodexManager.initialState testConfig)
      [ManagerOp.connectOp okConnectEnv,
       ManagerOp.uploadOp "op1" "missing.txt" missingFileEnv,
       ManagerOp.downloadOp "op2" "" "/tmp/out" emptyCidEnv,
       ManagerOp.disconnectOp (Except.ok ())]) = none :=
  C10_get_error_always_none testConfig okConnectEnv
    (CodexManager.initialState testConfig)
    [ManagerOp.connectOp okConnectEnv,
     ManagerOp.uploadOp "op1" "missing.txt" missingFileEnv,
     ManagerOp.downloadOp "op2" "" "/tmp/out" emptyCidEnv,
     ManagerOp.disconnectOp (Except.ok ())] rfl

end Dextools
